import Mathlib

/-!
Shallow embedding of `src/python/kserve/kserve/model_server.py` (the KServe
model-server startup orchestration) together with the collaborator interfaces
it uses, and proofs of the specification claims about it.

State that the Python code mutates in place (the model-repository mapping, the
`enable_latency_logging` field of each model object) is threaded explicitly.
Observable side effects of `ModelServer.start` (starting the remote-actor
runtime, deploying a descriptor, acquiring a handle, registering a handle,
starting the uvicorn listener) are recorded as an event trace in program order.
-/

namespace KServe

/-- Constant `DEFAULT_HTTP_PORT = 8080` from the source. -/
def DEFAULT_HTTP_PORT : Nat := 8080

/-- Constant `DEFAULT_GRPC_PORT = 8081` from the source. -/
def DEFAULT_GRPC_PORT : Nat := 8081

/-- Modelled from the spec: a Local backend (`kserve.Model`, repository code not
under `src/`) exposes a `name` and a mutable `enable_latency_logging` flag that
the gateway sets at registration time (collaborator contract of the spec). -/
structure Model where
  name : String
  enable_latency_logging : Bool
  deriving DecidableEq, Repr

/-- An element of a `list` collection passed to `ModelServer.start`: either an
instance of `Model`, or a value of any other type (which the
`isinstance(model, Model)` check in the population loop rejects). -/
inductive ListElem
  | model (m : Model)
  | other
  deriving DecidableEq, Repr

/-- Returns whether the element passes the `isinstance(model, Model)` check. -/
def ListElem.isModel : ListElem → Bool
  | .model _ => true
  | .other => false

/-- Modelled from the spec: a remote actor handle
(`ray.serve.api.RayServeHandle`, external collaborator), a black box to the gateway;
only its identity matters here. -/
structure RayServeHandle where
  hid : Nat
  deriving DecidableEq, Repr

/-- Modelled from the spec: a Remote deployment descriptor
(`ray.serve.api.Deployment`, external collaborator) exposes `deploy()` and
`get_handle()`; `get_handle` yields the handle belonging to the descriptor. -/
structure Deployment where
  handle : RayServeHandle
  deriving DecidableEq, Repr

/-- A value of a `dict` collection passed to `ModelServer.start`: either a
`Deployment`, or a value of any other type (which the
`isinstance(v, Deployment)` check rejects). -/
inductive DictVal
  | deployment (d : Deployment)
  | otherVal
  deriving DecidableEq, Repr

/-- Returns whether the value passes the `isinstance(v, Deployment)` check. -/
def DictVal.isDeployment : DictVal → Bool
  | .deployment _ => true
  | .otherVal => false

/-- A registry entry: a reference either to a local `Model` object (identified
by its index in the list passed to `start`, reference semantics) or to a remote
handle. -/
inductive BackendRef
  | localRef (i : Nat)
  | remote (h : RayServeHandle)
  deriving DecidableEq, Repr

/-- Modelled from the spec: the `ModelRepository` registry (repository code not
under `src/`) is a mapping from model name to exactly one backend handle; the
mapping is modelled extensionally as a function. -/
abbrev Registry := String → Option BackendRef

/-- The empty registry, as built by the `ModelRepository()` default. -/
def Registry.empty : Registry := fun _ => none

/-- Modelled from the spec: `ModelRepository.update` / `update_handle` insert or
replace the entry for a name (register semantics of the spec, last writer
wins). -/
def registryUpdate (reg : Registry) (name : String) (ref : BackendRef) : Registry :=
  fun k => if k = name then some ref else reg k

/-- Observable side effects of `ModelServer.start`, in program order:
`registerModelEv n i` is `self.register_model(model)` succeeding for the model
object at index `i` named `n`; `serveStart h p` is `serve.start(detached=True,
http_options=...)`; `deployEv k` is `models[key].deploy()`; `getHandleEv k` is
`models[key].get_handle()`; `registerHandleEv k` is
`self.register_model_handle(key, handle)`; `listenerStart p w` is the creation
and serving of the uvicorn server built from `uvicorn.Config(...,
port=self.http_port, workers=self.workers)`. -/
inductive Event
  | registerModelEv (name : String) (index : Nat)
  | serveStart (host : String) (port : Nat)
  | deployEv (key : String)
  | getHandleEv (key : String)
  | registerHandleEv (key : String)
  | listenerStart (port : Nat) (workers : Nat)
  deriving DecidableEq, Repr

/-- Returns whether the event is the startup of the remote-actor runtime. -/
def Event.isServeStart : Event → Bool
  | .serveStart _ _ => true
  | _ => false

/-- Returns whether the event is the creation/start of a network listener. -/
def Event.isListenerStart : Event → Bool
  | .listenerStart _ _ => true
  | _ => false

/-- Returns whether the event is a local model registration. -/
def Event.isRegisterModel : Event → Bool
  | .registerModelEv _ _ => true
  | _ => false

/-- The exceptions raised by `ModelServer.start` and
`ModelServer.register_model`: `modelTypeNotModel` is
`RuntimeError` with the message that the model type should be `Model`; `modelTypeNotDeployment` is
`RuntimeError("Model type should be RayServe Deployment")`;
`unknownCollectionType` is `RuntimeError("Unknown model collection types")`;
`modelNameMissing` is `Exception("Failed to register model, model.name must be
provided.")`. -/
inductive PyErr
  | modelTypeNotModel
  | modelTypeNotDeployment
  | unknownCollectionType
  | modelNameMissing
  deriving DecidableEq, Repr

/-- The collection argument of `ModelServer.start`:
`Union[List[Model], Dict[str, Deployment]]` at the type annotation, but at
runtime a list, a dict (association list in insertion order, keys unique), or
a value of any other type. -/
inductive Collection
  | list (elems : List ListElem)
  | dict (entries : List (String × DictVal))
  | otherColl
  deriving DecidableEq, Repr

/-- A collection is homogeneous when every list element is a `Model`, or every
dict value is a `Deployment`; any other runtime type is not homogeneous. -/
def Collection.homogeneous : Collection → Bool
  | .list elems => elems.all ListElem.isModel
  | .dict entries => entries.all (fun p => p.2.isDeployment)
  | .otherColl => false

/-- State of the `ModelServer` object as built by `__init__`; the defaults are
the argparse defaults of the source. -/
structure ModelServer where
  http_port : Nat
  grpc_port : Nat
  workers : Nat
  registered_models : Registry
  enable_latency_logging : Bool

/-- A `ModelServer()` built with all argparse defaults:
`http_port=8080`, `grpc_port=8081`, `workers=1`, an empty `ModelRepository()`,
`enable_latency_logging=False`. -/
def defaultServer : ModelServer :=
  ⟨DEFAULT_HTTP_PORT, DEFAULT_GRPC_PORT, 1, Registry.empty, false⟩

/-- Copy of a server with `grpc_port` replaced (used to state that `start`
never reads `grpc_port`). -/
def ModelServer.setGrpcPort (s : ModelServer) (g : Nat) : ModelServer :=
  ⟨s.http_port, g, s.workers, s.registered_models, s.enable_latency_logging⟩

/-- `ModelServer.register_model`: raises when `model.name` is falsy
(`if not model.name`), otherwise stores the model reference in the registry
under its name (`self.registered_models.update(model)`). The returned registry
is unchanged in the error case. -/
def register_model (reg : Registry) (m : Model) (ref : BackendRef) :
    Registry × Option PyErr :=
  if m.name = "" then (reg, some .modelNameMissing)
  else (registryUpdate reg m.name ref, none)

/-- `ModelServer.register_model_handle`: stores a remote handle under `name`
(`self.registered_models.update_handle(name, model_handle)`). -/
def register_model_handle (reg : Registry) (name : String) (h : RayServeHandle) :
    Registry :=
  registryUpdate reg name (.remote h)

/-- Result of the list-population loop of `start`: the list of model objects
after in-place mutation, the registry, the emitted events, and the pending
exception if one was raised. -/
structure PopulateResult where
  elems : List ListElem
  registry : Registry
  trace : List Event
  err : Option PyErr

/-- The `for model in models` loop of `ModelServer.start` for a list
collection, processing elements left to right starting at object index `i0`:
each `Model` is registered via `register_model` (which raises on an empty
name), then its `enable_latency_logging` field is set to the process-wide
flag; a non-`Model` element raises
`RuntimeError` with the message that the model type should be `Model`. An exception stops the loop,
leaving earlier mutations in place. -/
def populateList (f : Bool) (reg : Registry) (i0 : Nat) :
    List ListElem → PopulateResult
  | [] => ⟨[], reg, [], none⟩
  | .other :: rest => ⟨.other :: rest, reg, [], some .modelTypeNotModel⟩
  | .model m :: rest =>
    match register_model reg m (.localRef i0) with
    | (reg1, some e) => ⟨.model m :: rest, reg1, [], some e⟩
    | (reg1, none) =>
      let r := populateList f reg1 (i0 + 1) rest
      ⟨.model ⟨m.name, f⟩ :: r.elems, r.registry,
        .registerModelEv m.name i0 :: r.trace, r.err⟩

/-- Result of the dict-population loop of `start`. -/
structure DeployResult where
  registry : Registry
  trace : List Event

/-- The `for key in models` loop of `ModelServer.start` for a dict collection:
each descriptor is deployed, its handle acquired, and the handle registered
under the dict key. The `otherVal` case is unreachable in `start` because the
loop only runs after the `all(isinstance(v, Deployment) ...)` check. -/
def deployAll (reg : Registry) : List (String × DictVal) → DeployResult
  | [] => ⟨reg, []⟩
  | (k, .deployment d) :: rest =>
    let reg1 := register_model_handle reg k d.handle
    let r := deployAll reg1 rest
    ⟨r.registry, .deployEv k :: .getHandleEv k :: .registerHandleEv k :: r.trace⟩
  | (_, .otherVal) :: rest => deployAll reg rest

/-- The event sequence the dict-population loop emits for its entries, in dict
order: deploy, acquire handle, register handle, for each key. -/
def deployEvents : List (String × DictVal) → List Event
  | [] => []
  | (k, _) :: rest =>
    .deployEv k :: .getHandleEv k :: .registerHandleEv k :: deployEvents rest

/-- Result of `ModelServer.start`: the (mutated) list of model objects, the
registry contents, the event trace, and the exception if one was raised. -/
structure StartResult where
  elems : List ListElem
  registry : Registry
  trace : List Event
  err : Option PyErr

/-- `ModelServer.start`: for a list, run the population loop (registering each
`Model` and propagating the latency flag); for a dict, check that every value
is a `Deployment`, start the remote-actor runtime at the fixed administrative
endpoint `0.0.0.0:9071`, then deploy and register every descriptor; any other
collection type raises. If no exception was raised, build the uvicorn config
from `self.http_port` and `self.workers` and serve it — the single listener
event. An exception propagates out of `start` before the listener exists. -/
def ModelServer.start (s : ModelServer) : Collection → StartResult
  | .list elems =>
    let p := populateList s.enable_latency_logging s.registered_models 0 elems
    match p.err with
    | some e => ⟨p.elems, p.registry, p.trace, some e⟩
    | none => ⟨p.elems, p.registry,
        p.trace ++ [.listenerStart s.http_port s.workers], none⟩
  | .dict entries =>
    if entries.all (fun p => p.2.isDeployment) then
      let d := deployAll s.registered_models entries
      ⟨[], d.registry,
        .serveStart "0.0.0.0" 9071 ::
          (d.trace ++ [.listenerStart s.http_port s.workers]), none⟩
    else ⟨[], s.registered_models, [], some .modelTypeNotDeployment⟩
  | .otherColl => ⟨[], s.registered_models, [], some .unknownCollectionType⟩

/-- One character of Python `str.lower()`, restricted to the ASCII fragment
(all the truth literals are ASCII). -/
def asciiLower (c : Char) : Char :=
  if 65 ≤ c.toNat ∧ c.toNat ≤ 90 then Char.ofNat (c.toNat + 32) else c

/-- Python `str.lower()`, applied characterwise over the ASCII fragment. -/
def strLower (s : String) : String :=
  String.mk (s.data.map asciiLower)

/-- Python standard library `distutils.util.strtobool`, the function used by
the `enable_latency_logging` argparse type: lowercase the value, map the truth
literals y/yes/t/true/on/1 to 1 and n/no/f/false/off/0 to 0, and raise
`ValueError` (modelled as `none`) on anything else. -/
def strtobool (val : String) : Option Nat :=
  if ["y", "yes", "t", "true", "on", "1"].contains (strLower val) then some 1
  else if ["n", "no", "f", "false", "off", "0"].contains (strLower val) then some 0
  else none

/-- The `enable_latency_logging` argument type from the source:
`lambda x: bool(strtobool(x))`; a `ValueError` from `strtobool` propagates and
argparse reports it as a configuration error (modelled as `none`). -/
def parseLatencyFlag (x : String) : Option Bool :=
  (strtobool x).map (fun n => n != 0)

/-- Object identity of a `ModelRepository` instance: two components hold the
same registry exactly when they hold equal references. -/
abbrev RegistryRef := Nat

/-- `kserve.handlers.dataplane.DataPlane`, constructed as
`DataPlane(model_registry=self.registered_models)`: holds the registry
reference it was given. -/
structure DataPlane where
  model_registry : RegistryRef
  deriving DecidableEq, Repr

/-- `kserve.handlers.model_repository_extension.ModelRepositoryExtension`,
constructed as `ModelRepositoryExtension(model_registry=self.registered_models)`:
holds the registry reference it was given. -/
structure ModelRepositoryExtension where
  model_registry : RegistryRef
  deriving DecidableEq, Repr

/-- `kserve.handlers.V1Endpoints`, constructed as
`V1Endpoints(dataplane, model_repository_extension)`. -/
structure V1Endpoints where
  dataplane : DataPlane
  model_repository_extension : ModelRepositoryExtension
  deriving DecidableEq, Repr

/-- The endpoint callables bound into the route table by
`ModelServer.create_application`, one constructor per distinct bound method. -/
inductive Handler
  | dataplane_live
  | metrics_handler
  | v1_models
  | v1_model_ready
  | v1_predict
  | v1_explain
  | dataplane_metadata
  | dataplane_ready
  | dataplane_model_metadata
  | dataplane_infer
  | repo_load
  | repo_unload
  deriving DecidableEq, Repr

/-- One `FastAPIRoute(path, endpoint, methods=...)` entry; `methods = none`
means the `methods` keyword was not passed (FastAPI then defaults to GET). -/
structure Route where
  path : String
  endpoint : Handler
  methods : Option (List String)
  deriving DecidableEq, Repr

/-- Modelled from the spec: the recognized error-taxonomy kinds are the
exception classes of `kserve.errors` (repository code not under `src/`), plus
the Python base class `Exception`, from which every exception class derives. -/
inductive ExcClass
  | InvalidInput
  | InferenceError
  | ModelNotFound
  | ModelNotReady
  | ExceptionBase
  deriving DecidableEq, Repr

/-- Modelled from the spec: the handler functions of `kserve.errors`
(repository code not under `src/`); each translates its exception into a
protocol response instead of crashing the worker. -/
inductive ExcHandler
  | invalid_input_handler
  | inference_error_handler
  | model_not_found_handler
  | model_not_ready_handler
  | exception_handler
  deriving DecidableEq, Repr

/-- An exception raised while serving a request: one of the four recognized
taxonomy kinds, or any other exception. -/
inductive RaisedError
  | invalidInput
  | inferenceError
  | modelNotFound
  | modelNotReady
  | otherError
  deriving DecidableEq, Repr

/-- Modelled from the spec: the method resolution order of the raised
exception, restricted to the classes that can appear in the handler table.
The four taxonomy kinds are distinct direct classes; every Python exception
class ultimately derives from `Exception`. -/
def RaisedError.mro : RaisedError → List ExcClass
  | .invalidInput => [.InvalidInput, .ExceptionBase]
  | .inferenceError => [.InferenceError, .ExceptionBase]
  | .modelNotFound => [.ModelNotFound, .ExceptionBase]
  | .modelNotReady => [.ModelNotReady, .ExceptionBase]
  | .otherError => [.ExceptionBase]

/-- Exact-class lookup in an exception-handler table. -/
def lookupHandler : List (ExcClass × ExcHandler) → ExcClass → Option ExcHandler
  | [], _ => none
  | (c, h) :: rest, c2 => if c2 = c then some h else lookupHandler rest c2

/-- Starlette exception-handler resolution: walk the method resolution order of
the raised exception and use the handler installed for the first matching
class, if any. -/
def handlerFor (table : List (ExcClass × ExcHandler)) (e : RaisedError) :
    Option ExcHandler :=
  e.mro.findSome? (fun c => lookupHandler table c)

/-- The FastAPI application value built by `ModelServer.create_application`:
the route table, the exception-handler table, and the component objects the
routes are bound to. -/
structure FastAPIApp where
  routes : List Route
  exception_handlers : List (ExcClass × ExcHandler)
  dataplane : DataPlane
  model_repository_extension : ModelRepositoryExtension
  v1_endpoints : V1Endpoints

/-- `ModelServer.create_application`: builds a `DataPlane` and a
`ModelRepositoryExtension` over `self.registered_models` (passed here as the
registry reference), a `V1Endpoints` over both, and the FastAPI application
with the full route table and exception-handler table of the source. -/
def create_application (registered_models : RegistryRef) : FastAPIApp :=
  let dataplane : DataPlane := ⟨registered_models⟩
  let model_repository_extension : ModelRepositoryExtension := ⟨registered_models⟩
  let v1_endpoints : V1Endpoints := ⟨dataplane, model_repository_extension⟩
  ⟨[⟨"/", .dataplane_live, none⟩,
    ⟨"/metrics", .metrics_handler, some ["GET"]⟩,
    ⟨"/v1/models", .v1_models, none⟩,
    ⟨"/v1/models/{model_name}", .v1_model_ready, none⟩,
    ⟨"/v1/models/{model_name}:predict", .v1_predict, some ["POST"]⟩,
    ⟨"/v1/models/{model_name}:explain", .v1_explain, some ["POST"]⟩,
    ⟨"/v2", .dataplane_metadata, none⟩,
    ⟨"/v2/health/live", .dataplane_live, none⟩,
    ⟨"/v2/health/ready", .dataplane_ready, none⟩,
    ⟨"/v2/models/{model_name}", .dataplane_model_metadata, none⟩,
    ⟨"/v2/models/{model_name}/versions/{model_version}", .dataplane_model_metadata, none⟩,
    ⟨"/v1/models/{model_name}/infer", .dataplane_infer, some ["POST"]⟩,
    ⟨"/v1/models/{model_name}/versions/{model_version}/infer", .dataplane_infer, some ["POST"]⟩,
    ⟨"/v2/repository/models/{model_name}/load", .repo_load, none⟩,
    ⟨"/v2/repository/models/{model_name}/unload", .repo_unload, none⟩],
   [(.InvalidInput, .invalid_input_handler),
    (.InferenceError, .inference_error_handler),
    (.ModelNotFound, .model_not_found_handler),
    (.ModelNotReady, .model_not_ready_handler),
    (.ExceptionBase, .exception_handler)],
   dataplane, model_repository_extension, v1_endpoints⟩

/-! ## Helper lemmas -/

theorem registryUpdate_self (reg : Registry) (n : String) (ref : BackendRef) :
    registryUpdate reg n ref n = some ref := by
  simp [registryUpdate]

theorem registryUpdate_isSome (reg : Registry) (k n : String) (ref : BackendRef)
    (h : (reg n).isSome = true) : (registryUpdate reg k ref n).isSome = true := by
  unfold registryUpdate
  split
  · rfl
  · exact h

theorem registryUpdate_ne (reg : Registry) (k n : String) (ref : BackendRef)
    (h : ¬ n = k) : registryUpdate reg k ref n = reg n := by
  simp [registryUpdate, h]

theorem populateList_cons_model_ok (f : Bool) (reg : Registry) (i0 : Nat)
    (m : Model) (rest : List ListElem) (hm : ¬ m.name = "") :
    populateList f reg i0 (.model m :: rest) =
      ⟨.model ⟨m.name, f⟩ ::
          (populateList f (registryUpdate reg m.name (.localRef i0)) (i0 + 1) rest).elems,
        (populateList f (registryUpdate reg m.name (.localRef i0)) (i0 + 1) rest).registry,
        .registerModelEv m.name i0 ::
          (populateList f (registryUpdate reg m.name (.localRef i0)) (i0 + 1) rest).trace,
        (populateList f (registryUpdate reg m.name (.localRef i0)) (i0 + 1) rest).err⟩ := by
  rw [populateList]
  rw [register_model, if_neg hm]

theorem populateList_cons_model_bad (f : Bool) (reg : Registry) (i0 : Nat)
    (m : Model) (rest : List ListElem) (hm : m.name = "") :
    populateList f reg i0 (.model m :: rest) =
      ⟨.model m :: rest, reg, [], some .modelNameMissing⟩ := by
  rw [populateList]
  rw [register_model, if_pos hm]

theorem populateList_trace_register (f : Bool) :
    ∀ (elems : List ListElem) (reg : Registry) (i0 : Nat),
      (populateList f reg i0 elems).trace.all Event.isRegisterModel = true
  | [], _, _ => rfl
  | .other :: _, _, _ => rfl
  | .model m :: rest, reg, i0 => by
    by_cases hm : m.name = ""
    · rw [populateList_cons_model_bad f reg i0 m rest hm]
      rfl
    · rw [populateList_cons_model_ok f reg i0 m rest hm]
      have ih := populateList_trace_register f rest
        (registryUpdate reg m.name (.localRef i0)) (i0 + 1)
      simp [Event.isRegisterModel, ih]

theorem populateList_mono (f : Bool) :
    ∀ (elems : List ListElem) (reg : Registry) (i0 : Nat) (n : String),
      (reg n).isSome = true →
      ((populateList f reg i0 elems).registry n).isSome = true
  | [], _, _, _, h => h
  | .other :: _, _, _, _, h => h
  | .model m :: rest, reg, i0, n, h => by
    by_cases hm : m.name = ""
    · rw [populateList_cons_model_bad f reg i0 m rest hm]
      exact h
    · rw [populateList_cons_model_ok f reg i0 m rest hm]
      exact populateList_mono f rest _ (i0 + 1) n
        (registryUpdate_isSome reg m.name n (.localRef i0) h)

theorem populateList_err_isSome (f : Bool) :
    ∀ (elems : List ListElem) (reg : Registry) (i0 : Nat),
      elems.all ListElem.isModel = false →
      ((populateList f reg i0 elems).err).isSome = true
  | [], _, _, h => by simp at h
  | .other :: _, _, _, _ => rfl
  | .model m :: rest, reg, i0, h => by
    have hrest : rest.all ListElem.isModel = false := by
      simpa [ListElem.isModel] using h
    by_cases hm : m.name = ""
    · rw [populateList_cons_model_bad f reg i0 m rest hm]
      rfl
    · rw [populateList_cons_model_ok f reg i0 m rest hm]
      exact populateList_err_isSome f rest _ (i0 + 1) hrest

theorem populateList_err_none_good (f : Bool) :
    ∀ (elems : List ListElem) (reg : Registry) (i0 : Nat),
      (populateList f reg i0 elems).err = none →
      ∀ (j : Nat) (e : ListElem), elems[j]? = some e →
        ∃ m : Model, e = .model m ∧ ¬ m.name = ""
  | [], _, _, _, j, e, hj => by simp at hj
  | .other :: rest, reg, i0, h, j, e, hj => by
    rw [populateList] at h
    simp at h
  | .model m :: rest, reg, i0, h, j, e, hj => by
    by_cases hm : m.name = ""
    · rw [populateList_cons_model_bad f reg i0 m rest hm] at h
      simp at h
    · rw [populateList_cons_model_ok f reg i0 m rest hm] at h
      match j, hj with
      | 0, hj =>
        have he : e = .model m := by simpa using hj.symm
        exact ⟨m, he, hm⟩
      | j + 1, hj =>
        exact populateList_err_none_good f rest _ (i0 + 1) h j e (by simpa using hj)

theorem populateList_registers (f : Bool) :
    ∀ (elems : List ListElem) (reg : Registry) (i0 : Nat) (j : Nat) (m : Model),
      elems[j]? = some (.model m) →
      (∀ (j2 : Nat) (e : ListElem), j2 ≤ j → elems[j2]? = some e →
        ∃ m2 : Model, e = .model m2 ∧ ¬ m2.name = "") →
      (Event.registerModelEv m.name (i0 + j) ∈ (populateList f reg i0 elems).trace ∧
       ((populateList f reg i0 elems).registry m.name).isSome = true ∧
       (populateList f reg i0 elems).elems[j]? = some (.model ⟨m.name, f⟩))
  | [], _, _, j, _, hj, _ => by simp at hj
  | .other :: rest, reg, i0, j, m, hj, hgood => by
    obtain ⟨m2, hm2, _⟩ := hgood 0 .other (Nat.zero_le j) (by simp)
    exact absurd hm2 (by simp)
  | .model m0 :: rest, reg, i0, j, m, hj, hgood => by
    obtain ⟨m2, hm2, hm2ne⟩ := hgood 0 (.model m0) (Nat.zero_le j) (by simp)
    have hm0ne : ¬ m0.name = "" := by
      have : m0 = m2 := by simpa using hm2
      rw [this]; exact hm2ne
    rw [populateList_cons_model_ok f reg i0 m0 rest hm0ne]
    match j, hj with
    | 0, hj =>
      have hm : m = m0 := by simpa using hj.symm
      subst hm
      refine ⟨by simp, ?_, by simp⟩
      exact populateList_mono f rest _ (i0 + 1) m.name
        (by rw [registryUpdate_self]; rfl)
    | j + 1, hj =>
      have hj2 : rest[j]? = some (.model m) := by simpa using hj
      have hgood2 : ∀ (j2 : Nat) (e : ListElem), j2 ≤ j → rest[j2]? = some e →
          ∃ m2 : Model, e = .model m2 ∧ ¬ m2.name = "" := by
        intro j2 e hle he
        exact hgood (j2 + 1) e (Nat.succ_le_succ hle) (by simpa using he)
      have ih := populateList_registers f rest
        (registryUpdate reg m0.name (.localRef i0)) (i0 + 1) j m hj2 hgood2
      have hidx : i0 + 1 + j = i0 + (j + 1) := by omega
      refine ⟨?_, ih.2.1, by simpa using ih.2.2⟩
      · rw [← hidx]
        exact List.mem_cons_of_mem _ ih.1

theorem deployAll_trace :
    ∀ (entries : List (String × DictVal)) (reg : Registry),
      entries.all (fun p => p.2.isDeployment) = true →
      (deployAll reg entries).trace = deployEvents entries
  | [], _, _ => rfl
  | (k, .deployment d) :: rest, reg, h => by
    have hrest : rest.all (fun p => p.2.isDeployment) = true := by
      simpa [DictVal.isDeployment] using h
    rw [deployAll, deployEvents]
    simp only []
    rw [deployAll_trace rest _ hrest]
  | (k, .otherVal) :: rest, reg, h => by
    simp [DictVal.isDeployment] at h

theorem deployAll_trace_kinds :
    ∀ (entries : List (String × DictVal)) (reg : Registry),
      (deployAll reg entries).trace.all
        (fun e => !e.isServeStart && !e.isListenerStart) = true
  | [], _ => rfl
  | (k, .deployment d) :: rest, reg => by
    show (Event.deployEv k :: .getHandleEv k :: .registerHandleEv k ::
        (deployAll (register_model_handle reg k d.handle) rest).trace).all
          (fun e => !e.isServeStart && !e.isListenerStart) = true
    rw [List.all_cons, List.all_cons, List.all_cons,
      deployAll_trace_kinds rest (register_model_handle reg k d.handle)]
    rfl
  | (k, .otherVal) :: rest, reg => deployAll_trace_kinds rest reg

theorem deployAll_registry_stable :
    ∀ (entries : List (String × DictVal)) (reg : Registry) (n : String),
      n ∉ entries.map Prod.fst →
      (deployAll reg entries).registry n = reg n
  | [], _, _, _ => rfl
  | (k, .deployment d) :: rest, reg, n, h => by
    have hk : ¬ n = k := by
      intro hkk
      exact h (by simp [hkk])
    have hrest : n ∉ rest.map Prod.fst := by
      intro hmem
      exact h (by simp [hmem])
    rw [deployAll]
    show (deployAll (register_model_handle reg k d.handle) rest).registry n = reg n
    rw [deployAll_registry_stable rest _ n hrest]
    exact registryUpdate_ne reg k n (.remote d.handle) hk
  | (k, .otherVal) :: rest, reg, n, h => by
    have hrest : n ∉ rest.map Prod.fst := by
      intro hmem
      exact h (by simp [hmem])
    exact deployAll_registry_stable rest reg n hrest

theorem deployAll_registers :
    ∀ (entries : List (String × DictVal)) (reg : Registry),
      (entries.map Prod.fst).Nodup →
      ∀ (k : String) (d : Deployment), (k, .deployment d) ∈ entries →
        (deployAll reg entries).registry k = some (.remote d.handle)
  | [], _, _, _, _, hmem => absurd hmem (List.not_mem_nil _)
  | (k0, v0) :: rest, reg, hnd, k, d, hmem => by
    rw [List.map_cons, List.nodup_cons] at hnd
    rcases List.mem_cons.mp hmem with heq | htail
    · have hk : k0 = k := by
        have := congrArg Prod.fst heq.symm
        simpa using this
      have hv : v0 = .deployment d := by
        have := congrArg Prod.snd heq.symm
        simpa using this
      subst hk
      subst hv
      show (deployAll (register_model_handle reg k0 d.handle) rest).registry k0 =
        some (.remote d.handle)
      rw [deployAll_registry_stable rest _ k0 hnd.1]
      exact registryUpdate_self reg k0 (.remote d.handle)
    · cases v0 with
      | deployment d0 =>
        show (deployAll (register_model_handle reg k0 d0.handle) rest).registry k =
          some (.remote d.handle)
        exact deployAll_registers rest _ hnd.2 k d htail
      | otherVal =>
        exact deployAll_registers rest reg hnd.2 k d htail

theorem deployEvents_kinds :
    ∀ (entries : List (String × DictVal)),
      (deployEvents entries).all
        (fun e => !e.isServeStart && !e.isListenerStart) = true
  | [] => rfl
  | (k, v) :: rest => by
    show (Event.deployEv k :: .getHandleEv k :: .registerHandleEv k ::
        deployEvents rest).all (fun e => !e.isServeStart && !e.isListenerStart) = true
    rw [List.all_cons, List.all_cons, List.all_cons, deployEvents_kinds rest]
    rfl

theorem all_register_not_listener {l : List Event}
    (h : l.all Event.isRegisterModel = true) :
    l.all (fun e => !e.isListenerStart) = true := by
  rw [List.all_eq_true] at h ⊢
  intro e he
  have := h e he
  cases e <;> simp_all [Event.isRegisterModel, Event.isListenerStart]

theorem filter_listener_eq_nil {l : List Event}
    (h : l.all (fun e => !e.isListenerStart) = true) :
    l.filter Event.isListenerStart = [] := by
  rw [List.all_eq_true] at h
  rw [List.filter_eq_nil_iff]
  intro e he
  have := h e he
  simp_all

theorem filter_serve_eq_nil {l : List Event}
    (h : l.all (fun e => !e.isServeStart) = true) :
    l.filter Event.isServeStart = [] := by
  rw [List.all_eq_true] at h
  rw [List.filter_eq_nil_iff]
  intro e he
  have := h e he
  simp_all

/-! ## Claims -/

/-- C1: for every model collection passed to `ModelServer.start` that is not
homogeneous (a list containing an element that is not a Local `Model`, a dict
containing a value that is not a Remote `Deployment`, or neither a list nor a
dict), `start` raises a startup configuration error and returns before any
network listener is created or started. -/
theorem C1_mixed_collection_fails_before_listener
    (s : ModelServer) (c : Collection) (h : c.homogeneous = false) :
    ((s.start c).err).isSome = true ∧
    (s.start c).trace.all (fun e => !e.isListenerStart) = true := by
  cases c with
  | list elems =>
    have hall : elems.all ListElem.isModel = false := h
    have herr := populateList_err_isSome s.enable_latency_logging elems
      s.registered_models 0 hall
    obtain ⟨e, he⟩ := Option.isSome_iff_exists.mp herr
    have htr := populateList_trace_register s.enable_latency_logging elems
      s.registered_models 0
    constructor
    · simp [ModelServer.start, he]
    · simp only [ModelServer.start, he]
      exact all_register_not_listener htr
  | dict entries =>
    have hall : entries.all (fun p => p.2.isDeployment) = false := h
    constructor
    · simp [ModelServer.start, hall]
    · simp [ModelServer.start, hall]
  | otherColl => exact ⟨rfl, rfl⟩

/-- Witness for C1 at a concrete input: a collection that is neither a list nor
a dict is rejected before the listener. -/
theorem C1_mixed_collection_fails_before_listener_witness :
    (Collection.otherColl.homogeneous = false) ∧
    (((defaultServer.start .otherColl).err).isSome = true ∧
     (defaultServer.start .otherColl).trace.all (fun e => !e.isListenerStart) = true) :=
  ⟨rfl, C1_mixed_collection_fails_before_listener defaultServer .otherColl rfl⟩

/-- C2: for every list of Local `Model` objects passed to `ModelServer.start`,
after the populating phase completes, every model in the list has been
registered in the registry under its own name (registration event at its index,
entry present under its name) and every model object carries
`enable_latency_logging` equal to the process-wide server setting. -/
theorem C2_local_population_registers_and_propagates_flag
    (s : ModelServer) (elems : List ListElem)
    (hmodels : elems.all ListElem.isModel = true)
    (hok : (s.start (.list elems)).err = none) :
    ∀ (j : Nat) (m : Model), elems[j]? = some (.model m) →
      Event.registerModelEv m.name j ∈ (s.start (.list elems)).trace ∧
      (((s.start (.list elems)).registry) m.name).isSome = true ∧
      (s.start (.list elems)).elems[j]? =
        some (.model ⟨m.name, s.enable_latency_logging⟩) := by
  intro j m hj
  cases hpe : (populateList s.enable_latency_logging s.registered_models 0 elems).err with
  | some e => simp [ModelServer.start, hpe] at hok
  | none =>
    have hgood := populateList_err_none_good s.enable_latency_logging elems
      s.registered_models 0 hpe
    have hreg := populateList_registers s.enable_latency_logging elems
      s.registered_models 0 j m hj (fun j2 e _ he => hgood j2 e he)
    rw [Nat.zero_add] at hreg
    refine ⟨?_, ?_, ?_⟩
    · simp only [ModelServer.start, hpe]
      exact List.mem_append_left _ hreg.1
    · simp only [ModelServer.start, hpe]
      exact hreg.2.1
    · simp only [ModelServer.start, hpe]
      exact hreg.2.2

/-- Witness for C2 at a concrete input: a server with the latency flag on and
one model with the flag initially off. -/
theorem C2_local_population_registers_and_propagates_flag_witness :
    (([ListElem.model ⟨"a", false⟩].all ListElem.isModel) = true) ∧
    (((⟨8080, 8081, 1, Registry.empty, true⟩ : ModelServer).start
        (.list [.model ⟨"a", false⟩])).err = none) ∧
    (Event.registerModelEv "a" 0 ∈
      ((⟨8080, 8081, 1, Registry.empty, true⟩ : ModelServer).start
        (.list [.model ⟨"a", false⟩])).trace ∧
     ((((⟨8080, 8081, 1, Registry.empty, true⟩ : ModelServer).start
        (.list [.model ⟨"a", false⟩])).registry) "a").isSome = true ∧
     ((⟨8080, 8081, 1, Registry.empty, true⟩ : ModelServer).start
        (.list [.model ⟨"a", false⟩])).elems[0]? = some (.model ⟨"a", true⟩)) :=
  ⟨by decide, by decide,
    C2_local_population_registers_and_propagates_flag
      ⟨8080, 8081, 1, Registry.empty, true⟩ [.model ⟨"a", false⟩]
      (by decide) (by decide) 0 ⟨"a", false⟩ (by decide)⟩

/-- C3 counterexample: the administrative endpoint is hard-coded to port 9071,
so for a server configured with `http_port=9071` the remote-actor runtime is
started at the very port that is the public serving port — the claimed
distinctness from the public serving port fails. -/
theorem C3_admin_port_not_distinct_counterexample :
    Event.serveStart "0.0.0.0" 9071 ∈
      ((⟨9071, 8081, 1, Registry.empty, false⟩ : ModelServer).start
        (.dict [("m", .deployment ⟨⟨0⟩⟩)])).trace ∧
    Event.listenerStart 9071 1 ∈
      ((⟨9071, 8081, 1, Registry.empty, false⟩ : ModelServer).start
        (.dict [("m", .deployment ⟨⟨0⟩⟩)])).trace ∧
    (⟨9071, 8081, 1, Registry.empty, false⟩ : ModelServer).http_port = 9071 := by
  decide

/-- C3 as amended: for every dict of Remote deployment descriptors passed to
`ModelServer.start`, the remote-actor runtime is started exactly once, at the
fixed administrative endpoint `0.0.0.0:9071` (distinct from the default public
serving port 8080, though not checked against a configured one), before any
descriptor is deployed; and each descriptor, in dict order, is deployed, its
remote handle acquired, and that handle registered under the descriptor key. -/
theorem C3_remote_start_order (s : ModelServer) (entries : List (String × DictVal))
    (hdep : entries.all (fun p => p.2.isDeployment) = true)
    (hkeys : (entries.map Prod.fst).Nodup) :
    (s.start (.dict entries)).err = none ∧
    (s.start (.dict entries)).trace =
      .serveStart "0.0.0.0" 9071 ::
        (deployEvents entries ++ [.listenerStart s.http_port s.workers]) ∧
    ((s.start (.dict entries)).trace.filter Event.isServeStart).length = 1 ∧
    (∀ (k : String) (d : Deployment), (k, .deployment d) ∈ entries →
      (s.start (.dict entries)).registry k = some (.remote d.handle)) ∧
    (9071 : Nat) ≠ DEFAULT_HTTP_PORT := by
  have htrace : (deployAll s.registered_models entries).trace = deployEvents entries :=
    deployAll_trace entries s.registered_models hdep
  have hkinds := deployEvents_kinds entries
  have hserve : (deployEvents entries).all (fun e => !e.isServeStart) = true := by
    rw [List.all_eq_true] at hkinds ⊢
    intro e he
    exact (Bool.and_eq_true_iff.mp (hkinds e he)).1
  refine ⟨?_, ?_, ?_, ?_, by decide⟩
  · simp [ModelServer.start, hdep]
  · simp only [ModelServer.start, hdep, if_pos]
    rw [htrace]
  · simp only [ModelServer.start, hdep, if_pos]
    rw [List.filter_cons, htrace]
    simp only [Event.isServeStart, List.filter_append]
    rw [filter_serve_eq_nil hserve]
    rfl
  · intro k d hmem
    simp only [ModelServer.start, hdep, if_pos]
    exact deployAll_registers entries s.registered_models hkeys k d hmem

/-- Witness for C3 as amended, at a concrete one-descriptor dict. -/
theorem C3_remote_start_order_witness :
    (([("m", DictVal.deployment ⟨⟨0⟩⟩)].all (fun p => p.2.isDeployment)) = true) ∧
    (([("m", DictVal.deployment ⟨⟨0⟩⟩)].map Prod.fst).Nodup) ∧
    ((defaultServer.start (.dict [("m", .deployment ⟨⟨0⟩⟩)])).err = none ∧
     (defaultServer.start (.dict [("m", .deployment ⟨⟨0⟩⟩)])).trace =
       .serveStart "0.0.0.0" 9071 ::
         (deployEvents [("m", .deployment ⟨⟨0⟩⟩)] ++ [.listenerStart 8080 1]) ∧
     ((defaultServer.start
        (.dict [("m", .deployment ⟨⟨0⟩⟩)])).trace.filter Event.isServeStart).length = 1 ∧
     (∀ (k : String) (d : Deployment),
        (k, DictVal.deployment d) ∈ [("m", DictVal.deployment ⟨⟨0⟩⟩)] →
        (defaultServer.start (.dict [("m", .deployment ⟨⟨0⟩⟩)])).registry k =
          some (.remote d.handle)) ∧
     (9071 : Nat) ≠ DEFAULT_HTTP_PORT) :=
  ⟨by decide, by decide,
    C3_remote_start_order defaultServer [("m", .deployment ⟨⟨0⟩⟩)] (by decide) (by decide)⟩

/-- C4: the application built by `ModelServer.create_application` contains a
route for every endpoint of the external interface table — liveness at `/`,
metrics, v1 model list / readiness / predict / explain, v2 server metadata, v2
health live and ready, v2 model metadata with and without version, v2-shaped
infer under the `/v1` prefix with and without version, and the repository load
and unload lifecycle endpoints — each bound to the dispatch or lifecycle
handler for that endpoint. -/
theorem C4_route_table_complete (r : RegistryRef) :
    (⟨"/", .dataplane_live, none⟩ : Route) ∈ (create_application r).routes ∧
    (⟨"/metrics", .metrics_handler, some ["GET"]⟩ : Route) ∈ (create_application r).routes ∧
    (⟨"/v1/models", .v1_models, none⟩ : Route) ∈ (create_application r).routes ∧
    (⟨"/v1/models/{model_name}", .v1_model_ready, none⟩ : Route) ∈ (create_application r).routes ∧
    (⟨"/v1/models/{model_name}:predict", .v1_predict, some ["POST"]⟩ : Route) ∈ (create_application r).routes ∧
    (⟨"/v1/models/{model_name}:explain", .v1_explain, some ["POST"]⟩ : Route) ∈ (create_application r).routes ∧
    (⟨"/v2", .dataplane_metadata, none⟩ : Route) ∈ (create_application r).routes ∧
    (⟨"/v2/health/live", .dataplane_live, none⟩ : Route) ∈ (create_application r).routes ∧
    (⟨"/v2/health/ready", .dataplane_ready, none⟩ : Route) ∈ (create_application r).routes ∧
    (⟨"/v2/models/{model_name}", .dataplane_model_metadata, none⟩ : Route) ∈ (create_application r).routes ∧
    (⟨"/v2/models/{model_name}/versions/{model_version}", .dataplane_model_metadata, none⟩ : Route) ∈ (create_application r).routes ∧
    (⟨"/v1/models/{model_name}/infer", .dataplane_infer, some ["POST"]⟩ : Route) ∈ (create_application r).routes ∧
    (⟨"/v1/models/{model_name}/versions/{model_version}/infer", .dataplane_infer, some ["POST"]⟩ : Route) ∈ (create_application r).routes ∧
    (⟨"/v2/repository/models/{model_name}/load", .repo_load, none⟩ : Route) ∈ (create_application r).routes ∧
    (⟨"/v2/repository/models/{model_name}/unload", .repo_unload, none⟩ : Route) ∈ (create_application r).routes := by
  have h : (create_application r).routes =
      [⟨"/", .dataplane_live, none⟩,
       ⟨"/metrics", .metrics_handler, some ["GET"]⟩,
       ⟨"/v1/models", .v1_models, none⟩,
       ⟨"/v1/models/{model_name}", .v1_model_ready, none⟩,
       ⟨"/v1/models/{model_name}:predict", .v1_predict, some ["POST"]⟩,
       ⟨"/v1/models/{model_name}:explain", .v1_explain, some ["POST"]⟩,
       ⟨"/v2", .dataplane_metadata, none⟩,
       ⟨"/v2/health/live", .dataplane_live, none⟩,
       ⟨"/v2/health/ready", .dataplane_ready, none⟩,
       ⟨"/v2/models/{model_name}", .dataplane_model_metadata, none⟩,
       ⟨"/v2/models/{model_name}/versions/{model_version}", .dataplane_model_metadata, none⟩,
       ⟨"/v1/models/{model_name}/infer", .dataplane_infer, some ["POST"]⟩,
       ⟨"/v1/models/{model_name}/versions/{model_version}/infer", .dataplane_infer, some ["POST"]⟩,
       ⟨"/v2/repository/models/{model_name}/load", .repo_load, none⟩,
       ⟨"/v2/repository/models/{model_name}/unload", .repo_unload, none⟩] := rfl
  rw [h]
  decide

/-- C5: the application installs a dedicated exception handler for each
recognized error-taxonomy kind (InvalidInput, InferenceError, ModelNotFound,
ModelNotReady) plus a catch-all handler for every other exception, and
handler resolution maps each raised error to its dedicated handler, falling
back to the catch-all for unrecognized errors. -/
theorem C5_exception_handler_table (r : RegistryRef) (e : RaisedError) :
    ((ExcClass.InvalidInput, ExcHandler.invalid_input_handler) ∈
        (create_application r).exception_handlers ∧
     (ExcClass.InferenceError, ExcHandler.inference_error_handler) ∈
        (create_application r).exception_handlers ∧
     (ExcClass.ModelNotFound, ExcHandler.model_not_found_handler) ∈
        (create_application r).exception_handlers ∧
     (ExcClass.ModelNotReady, ExcHandler.model_not_ready_handler) ∈
        (create_application r).exception_handlers ∧
     (ExcClass.ExceptionBase, ExcHandler.exception_handler) ∈
        (create_application r).exception_handlers) ∧
    handlerFor (create_application r).exception_handlers e =
      some (match e with
        | .invalidInput => .invalid_input_handler
        | .inferenceError => .inference_error_handler
        | .modelNotFound => .model_not_found_handler
        | .modelNotReady => .model_not_ready_handler
        | .otherError => .exception_handler) := by
  have h : (create_application r).exception_handlers =
      [(.InvalidInput, .invalid_input_handler),
       (.InferenceError, .inference_error_handler),
       (.ModelNotFound, .model_not_found_handler),
       (.ModelNotReady, .model_not_ready_handler),
       (.ExceptionBase, .exception_handler)] := rfl
  refine ⟨?_, ?_⟩
  · rw [h]
    decide
  · cases e <;> rfl

/-- C6 counterexample: the parser is `bool(strtobool(x))`, and `strtobool`
accepts more than the case-insensitive true/false literals — the string "yes"
is accepted (yielding true) instead of being rejected with a configuration
error, although it is not a case variant of "true" or "false". -/
theorem C6_extra_literals_accepted_counterexample :
    parseLatencyFlag "yes" = some true ∧
    strLower "yes" ≠ "true" ∧ strLower "yes" ≠ "false" := by
  refine ⟨rfl, ?_, ?_⟩ <;> decide

/-- C6 as amended: the latency-logging flag parser accepts, case-insensitively,
exactly the `strtobool` truth literals — y, yes, t, true, on, 1 yield true and
n, no, f, false, off, 0 yield false (in particular "true"/"True" yield true and
"false"/"False" yield false) — and rejects any other string value with a
configuration error. -/
theorem C6_latency_flag_characterization (x : String) :
    (strLower x = "true" → parseLatencyFlag x = some true) ∧
    (strLower x = "false" → parseLatencyFlag x = some false) ∧
    (parseLatencyFlag x = some true ↔
      ["y", "yes", "t", "true", "on", "1"].contains (strLower x) = true) ∧
    (parseLatencyFlag x = some false ↔
      (["y", "yes", "t", "true", "on", "1"].contains (strLower x) = false ∧
       ["n", "no", "f", "false", "off", "0"].contains (strLower x) = true)) ∧
    (parseLatencyFlag x = none ↔
      (["y", "yes", "t", "true", "on", "1"].contains (strLower x) = false ∧
       ["n", "no", "f", "false", "off", "0"].contains (strLower x) = false)) := by
  cases h1 : ["y", "yes", "t", "true", "on", "1"].contains (strLower x) <;>
    cases h2 : ["n", "no", "f", "false", "off", "0"].contains (strLower x) <;>
    refine ⟨?_, ?_, ?_, ?_, ?_⟩ <;>
    simp_all [parseLatencyFlag, strtobool]

/-- Witness for C6 as amended: the four strings the original claim names are
accepted with the right boolean. -/
theorem C6_latency_flag_characterization_witness :
    (strLower "True" = "true" ∧ parseLatencyFlag "True" = some true) ∧
    (strLower "False" = "false" ∧ parseLatencyFlag "False" = some false) :=
  ⟨⟨by decide, (C6_latency_flag_characterization "True").1 (by decide)⟩,
   ⟨by decide, (C6_latency_flag_characterization "False").2.1 (by decide)⟩⟩

/-- C7: the `DataPlane` and the `ModelRepositoryExtension` constructed by
`ModelServer.create_application` both hold a reference to the one registry
instance owned by the server (`self.registered_models`, passed here as the
registry reference), so every route handler operates on that single shared
registry, never on a copy; the `V1Endpoints` object wraps those same two
objects. -/
theorem C7_shared_registry_reference (r : RegistryRef) :
    (create_application r).dataplane.model_registry = r ∧
    (create_application r).model_repository_extension.model_registry = r ∧
    (create_application r).v1_endpoints.dataplane = (create_application r).dataplane ∧
    (create_application r).v1_endpoints.model_repository_extension =
      (create_application r).model_repository_extension :=
  ⟨rfl, rfl, rfl, rfl⟩

/-- C8 counterexample: in the list `[Model(name=""), 42]` the first non-Model
element is at index 1, and `start` does raise an error, but the `Model` at
index 0 is not registered at that moment (its empty name makes
`register_model` raise first), so "every Model at an index smaller than i has
already been registered" fails as stated. -/
theorem C8_unregistered_prefix_counterexample :
    ([ListElem.model ⟨"", false⟩, ListElem.other])[0]? =
      some (.model ⟨"", false⟩) ∧
    ([ListElem.model ⟨"", false⟩, ListElem.other])[1]? = some .other ∧
    ListElem.other.isModel = false ∧
    ((defaultServer.start (.list [.model ⟨"", false⟩, .other])).err).isSome = true ∧
    (defaultServer.start (.list [.model ⟨"", false⟩, .other])).trace = [] ∧
    (defaultServer.start (.list [.model ⟨"", false⟩, .other])).registry "" = none := by
  decide

/-- C8 as amended: if `ModelServer.start` is called with a list whose first
element that is not a Local `Model` is at index `i`, and every `Model` before
index `i` has a non-empty name, then `start` raises an error, but the
registrations are not rolled back: every `Model` at an index smaller than `i`
has already been registered in the registry at the moment the error is raised
(collection validation is interleaved with population, not performed atomically
before it). -/
theorem C8_prefix_registered_no_rollback
    (s : ModelServer) (elems : List ListElem) (i : Nat)
    (hbad : ∃ e, elems[i]? = some e ∧ e.isModel = false)
    (hgood : ∀ j, j < i →
      ∃ m : Model, elems[j]? = some (.model m) ∧ ¬ m.name = "") :
    ((s.start (.list elems)).err).isSome = true ∧
    ∀ (j : Nat) (m : Model), j < i → elems[j]? = some (.model m) →
      Event.registerModelEv m.name j ∈ (s.start (.list elems)).trace ∧
      (((s.start (.list elems)).registry) m.name).isSome = true := by
  constructor
  · obtain ⟨e, hei, hem⟩ := hbad
    have hmem : e ∈ elems := List.getElem?_mem hei
    have hall : elems.all ListElem.isModel = false := by
      cases hx : elems.all ListElem.isModel
      · rfl
      · have h2 := List.all_eq_true.mp hx e hmem
        rw [hem] at h2
        exact absurd h2 (by simp)
    have herr := populateList_err_isSome s.enable_latency_logging elems
      s.registered_models 0 hall
    obtain ⟨e2, he2⟩ := Option.isSome_iff_exists.mp herr
    simp [ModelServer.start, he2]
  · intro j m hji hjm
    have hreg := populateList_registers s.enable_latency_logging elems
      s.registered_models 0 j m hjm
      (fun j2 e2 hle he2 => by
        obtain ⟨m2, hm2, hne⟩ := hgood j2 (Nat.lt_of_le_of_lt hle hji)
        exact ⟨m2, Option.some.inj (he2.symm.trans hm2), hne⟩)
    rw [Nat.zero_add] at hreg
    cases hpe : (populateList s.enable_latency_logging s.registered_models 0 elems).err with
    | some e2 =>
      constructor
      · simp only [ModelServer.start, hpe]
        exact hreg.1
      · simp only [ModelServer.start, hpe]
        exact hreg.2.1
    | none =>
      constructor
      · simp only [ModelServer.start, hpe]
        exact List.mem_append_left _ hreg.1
      · simp only [ModelServer.start, hpe]
        exact hreg.2.1

/-- Witness for C8 as amended: one valid model followed by a non-Model value;
the model at index 0 is registered although `start` raises at index 1. -/
theorem C8_prefix_registered_no_rollback_witness :
    (((defaultServer.start (.list [.model ⟨"a", false⟩, .other])).err).isSome = true) ∧
    (Event.registerModelEv "a" 0 ∈
      (defaultServer.start (.list [.model ⟨"a", false⟩, .other])).trace ∧
     (((defaultServer.start (.list [.model ⟨"a", false⟩, .other])).registry) "a").isSome = true) := by
  have hgood : ∀ j, j < 1 →
      ∃ m : Model, ([ListElem.model ⟨"a", false⟩, ListElem.other])[j]? =
        some (.model m) ∧ ¬ m.name = "" := by
    intro j hj
    interval_cases j
    exact ⟨⟨"a", false⟩, by decide, by decide⟩
  have h := C8_prefix_registered_no_rollback defaultServer
    [.model ⟨"a", false⟩, .other] 1 ⟨.other, by decide, by decide⟩ hgood
  exact ⟨h.1, h.2 0 ⟨"a", false⟩ (by decide) (by decide)⟩

/-- C9: `ModelServer.register_model` raises for every model whose name is empty
(falsy) and leaves the registry unchanged; when the name is non-empty it raises
nothing and registers the model reference under its name, leaving every other
name untouched. -/
theorem C9_register_model_requires_name
    (reg : Registry) (m : Model) (ref : BackendRef) :
    (m.name = "" →
      register_model reg m ref = (reg, some .modelNameMissing)) ∧
    (¬ m.name = "" →
      (register_model reg m ref).2 = none ∧
      (register_model reg m ref).1 m.name = some ref ∧
      ∀ k, ¬ k = m.name → (register_model reg m ref).1 k = reg k) := by
  constructor
  · intro h
    simp [register_model, h]
  · intro h
    refine ⟨?_, ?_, ?_⟩
    · simp [register_model, h]
    · simp only [register_model, if_neg h]
      exact registryUpdate_self reg m.name ref
    · intro k hk
      simp only [register_model, if_neg h]
      exact registryUpdate_ne reg m.name k ref hk

/-- Witness for C9 at concrete inputs: an empty-named model is rejected with
the registry untouched; a named model is stored under its name and the entry
of a different name is untouched. -/
theorem C9_register_model_requires_name_witness :
    (register_model Registry.empty ⟨"", false⟩ (.localRef 0) =
      (Registry.empty, some .modelNameMissing)) ∧
    ((register_model Registry.empty ⟨"a", false⟩ (.localRef 0)).2 = none ∧
     (register_model Registry.empty ⟨"a", false⟩ (.localRef 0)).1 "a" =
       some (.localRef 0) ∧
     (register_model Registry.empty ⟨"a", false⟩ (.localRef 0)).1 "b" =
       Registry.empty "b") := by
  have h1 := (C9_register_model_requires_name Registry.empty ⟨"", false⟩ (.localRef 0)).1 rfl
  have h2 := (C9_register_model_requires_name Registry.empty ⟨"a", false⟩ (.localRef 0)).2
    (by decide)
  exact ⟨h1, h2.1, h2.2.1, h2.2.2 "b" (by decide)⟩

/-- C10: a successful `ModelServer.start` starts exactly one network listener —
the HTTP listener configured with `self.http_port` and `self.workers`; the
configured `grpc_port` value is stored on the server but never read by `start`,
so it is never used to start any listener (the whole result of `start` is
unchanged under any `grpc_port`). -/
theorem C10_single_http_listener (s : ModelServer) (c : Collection)
    (hok : (s.start c).err = none) :
    (s.start c).trace.filter Event.isListenerStart =
      [.listenerStart s.http_port s.workers] ∧
    ∀ g, (s.setGrpcPort g).start c = s.start c ∧
      (s.setGrpcPort g).grpc_port = g := by
  constructor
  · cases c with
    | list elems =>
      cases hpe : (populateList s.enable_latency_logging s.registered_models 0 elems).err with
      | some e => simp [ModelServer.start, hpe] at hok
      | none =>
        have htr := populateList_trace_register s.enable_latency_logging elems
          s.registered_models 0
        simp only [ModelServer.start, hpe]
        rw [List.filter_append,
          filter_listener_eq_nil (all_register_not_listener htr)]
        rfl
    | dict entries =>
      cases hall : entries.all (fun p => p.2.isDeployment) with
      | false => simp [ModelServer.start, hall] at hok
      | true =>
        have hkinds := deployAll_trace_kinds entries s.registered_models
        have hnl : (deployAll s.registered_models entries).trace.all
            (fun e => !e.isListenerStart) = true := by
          rw [List.all_eq_true] at hkinds ⊢
          intro e he
          exact (Bool.and_eq_true_iff.mp (hkinds e he)).2
        simp only [ModelServer.start, hall, if_pos]
        rw [List.filter_cons]
        simp only [Event.isListenerStart]
        rw [List.filter_append, filter_listener_eq_nil hnl]
        rfl
    | otherColl => simp [ModelServer.start] at hok
  · intro g
    constructor
    · cases c <;> rfl
    · rfl

/-- Witness for C10 at a concrete input: a server started with an empty model
list serves exactly one listener at the default port with one worker, and
changing `grpc_port` changes nothing about `start`. -/
theorem C10_single_http_listener_witness :
    ((defaultServer.start (.list [])).err = none) ∧
    ((defaultServer.start (.list [])).trace.filter Event.isListenerStart =
      [.listenerStart 8080 1] ∧
     ((defaultServer.setGrpcPort 9999).start (.list []) =
        defaultServer.start (.list []) ∧
      (defaultServer.setGrpcPort 9999).grpc_port = 9999)) := by
  have h := C10_single_http_listener defaultServer (.list []) (by decide)
  exact ⟨by decide, h.1, h.2 9999⟩

end KServe
